import Mathlib

/-!
Shallow embedding of the `background-agents` framework core:
the `BaseAgent` execution engine (`src/core/BaseAgent.js`), the
`AgentManager` orchestrator (`src/core/AgentManager.js`) and the
configuration-merge behaviour of the agent registry.

Conventions of the embedding:
* JavaScript objects with mutable fields become immutable Lean structures;
  a method that mutates `this` becomes a function returning the new state.
* The agent-type-specific `run()` body is a parameter
  `beh : Nat → Except String Unit` giving the outcome of the body on its
  n-th invocation (indexed by the instance's `runCount` at call time);
  `Except.error e` models the body throwing `e`.
* Timestamps (`new Date()`) are abstract `Nat` instants passed in by the
  caller; logging is elided everywhere (it does not affect state).
* A `try { ... } catch` that swallows is modelled by a total function; an
  error that propagates to the caller is modelled with `Except`.
* The `node-cron` task held in `this.task` is modelled by a flag `task`
  (is the field non-null) together with a resource counter `activeTasks`
  (cron tasks created by `cron.schedule` and not yet cancelled by
  `task.stop()`), so that trigger-resource leaks would be visible.
-/

/-- State of one `BaseAgent` instance: the mutable fields set up by the
constructor in `src/core/BaseAgent.js` lines 9-20 (logger elided). -/
structure AgentState where
  id : String
  type : String
  schedule : Option String
  isRunning : Bool
  /-- whether `this.task` is non-null -/
  task : Bool
  /-- live cron trigger resources created and not yet cancelled -/
  activeTasks : Nat
  lastRun : Option Nat
  runCount : Nat
  errorCount : Nat
  deriving Repr, DecidableEq

namespace BaseAgent

/-- The `BaseAgent` constructor (lines 9-20): `isRunning = false`,
`task = null`, `lastRun = null`, `runCount = 0`, `errorCount = 0`. -/
def init (id type : String) (schedule : Option String) : AgentState :=
  { id := id, type := type, schedule := schedule, isRunning := false,
    task := false, activeTasks := 0, lastRun := none,
    runCount := 0, errorCount := 0 }

/-- `execute()` (lines 62-78): sets `lastRun`, increments `runCount`, runs
the body; on a thrown error increments `errorCount` and calls the
`handleError` hook with the error. The function is total — the `catch`
swallows, so no error propagates to the caller. The second component is
the argument the `handleError` hook was invoked with (`none` when the
body succeeded and the hook was not invoked). -/
def execute (beh : Nat → Except String Unit) (now : Nat) (s : AgentState) :
    AgentState × Option String :=
  let s1 := { s with lastRun := some now, runCount := s.runCount + 1 }
  match beh s.runCount with
  | Except.ok _ => (s1, none)
  | Except.error e => ({ s1 with errorCount := s1.errorCount + 1 }, some e)

/-- `start()` (lines 22-44). Second component: whether the
already-running warning was logged (the early-return branch). With a
schedule it creates and starts a cron task; with no schedule it performs
one immediate `execute()`; then sets `isRunning = true`. -/
def start (beh : Nat → Except String Unit) (now : Nat) (s : AgentState) :
    AgentState × Bool :=
  if s.isRunning then (s, true)
  else
    match s.schedule with
    | some _ =>
        ({ s with task := true, activeTasks := s.activeTasks + 1,
                  isRunning := true }, false)
    | none =>
        let s1 := (execute beh now s).1
        ({ s1 with isRunning := true }, false)

/-- `stop()` (lines 46-60). Second component: whether the not-running
warning was logged (the early-return branch). Cancels the cron task if
present (`task.stop()`, releasing the trigger resource, then
`task = null`) and sets `isRunning = false`. -/
def stop (s : AgentState) : AgentState × Bool :=
  if s.isRunning then
    let s1 :=
      if s.task then
        { s with task := false, activeTasks := s.activeTasks - 1 }
      else s
    ({ s1 with isRunning := false }, false)
  else (s, true)

/-- The status projection `getStatus()` returns (lines 90-100). -/
structure Status where
  id : String
  type : String
  isRunning : Bool
  lastRun : Option Nat
  runCount : Nat
  errorCount : Nat
  schedule : Option String
  deriving Repr, DecidableEq

/-- `getStatus()` (lines 90-100): a read-only projection of the instance. -/
def getStatus (s : AgentState) : Status :=
  { id := s.id, type := s.type, isRunning := s.isRunning,
    lastRun := s.lastRun, runCount := s.runCount,
    errorCount := s.errorCount, schedule := s.schedule }

/-- A sequence of scheduler firings at the given instants: each firing
invokes `execute()` (the callback of `cron.schedule`, line 31-32). -/
def fireAll (beh : Nat → Except String Unit) (times : List Nat)
    (s : AgentState) : AgentState :=
  times.foldl (fun st t => (execute beh t st).1) s

/-- Structural invariant tying `this.task` to the live cron resources:
the field holds at most one handle and it is live exactly when non-null,
and a non-null task only exists on a running instance. -/
def taskInv (s : AgentState) : Prop :=
  s.activeTasks = (if s.task then 1 else 0) ∧ (s.task = true → s.isRunning = true)

instance (s : AgentState) : Decidable (taskInv s) := by
  unfold taskInv; infer_instance

/-- Observable trace of one `retry(operation, maxRetries, delay)` call
(lines 107-116): its outcome, the backoff waits performed, and how many
times `operation` was invoked. `result = Except.ok none` models the loop
exiting without a `return` (the call evaluates to `undefined`);
`Except.ok (some a)` models `return a`; `Except.error e` models `throw`. -/
structure RetryTrace (α : Type) where
  result : Except String (Option α)
  waits : List Nat
  calls : Nat
  deriving Repr

/-- The `for (let i = 0; i < maxRetries; i++)` loop of `retry`
(lines 108-115), at loop index `i` with `remaining = maxRetries - i`
iterations still allowed. `op j` is the outcome of invoking `operation`
in iteration `j`. On success the value is returned; on error the loop
rethrows when `i === maxRetries - 1` (that is, `remaining = 1`) and
otherwise sleeps `delay * 2^i` and continues. -/
def retryGo (op : Nat → Except String α) (delay : Nat) :
    Nat → Nat → RetryTrace α
  | _, 0 => ⟨Except.ok none, [], 0⟩
  | i, remaining + 1 =>
    match op i with
    | Except.ok a => ⟨Except.ok (some a), [], 1⟩
    | Except.error e =>
      match remaining with
      | 0 => ⟨Except.error e, [], 1⟩
      | r + 1 =>
        let t := retryGo op delay (i + 1) (r + 1)
        ⟨t.result, delay * 2 ^ i :: t.waits, t.calls + 1⟩

/-- `retry(operation, maxRetries, delay)` (lines 107-116): the loop run
from `i = 0` with `maxRetries` iterations allowed. -/
def retry (op : Nat → Except String α) (maxRetries delay : Nat) :
    RetryTrace α :=
  retryGo op delay 0 maxRetries

/-- The list of exponential-backoff waits `delay * 2^i, delay * 2^(i+1), ...`
(`n` of them, starting at exponent `i`), as slept by the `retry` loop. -/
def backoffFrom (delay : Nat) : Nat → Nat → List Nat
  | _, 0 => []
  | i, n + 1 => delay * 2 ^ i :: backoffFrom delay (i + 1) n

end BaseAgent

/-- Association-list lookup with string keys, modelling `Map.get` /
`Map.has` on the manager's `this.agents` (first binding wins). -/
def AgentMap.find {ι : Type} (k : String) : List (String × ι) → Option ι
  | [] => none
  | kv :: rest => if kv.1 = k then some kv.2 else AgentMap.find k rest

/-- Association-list update modelling `Map.set`: overwrites an existing
key in place, otherwise appends (JavaScript `Map` keeps insertion order). -/
def AgentMap.set {ι : Type} (k : String) (v : ι) :
    List (String × ι) → List (String × ι)
  | [] => [(k, v)]
  | kv :: rest =>
      if kv.1 = k then (k, v) :: rest else kv :: AgentMap.set k v rest

/-- State of the `AgentManager` (`src/core/AgentManager.js` lines 8-13):
the `agents` map (insertion-ordered) and the `isRunning` flag. The
instance type `ι` is a parameter because entries are `BaseAgent`
subclasses reached through dynamic dispatch; the concrete manager of the
source instantiates `ι := AgentState`. -/
structure AgentManager (ι : Type) where
  agents : List (String × ι)
  isRunning : Bool
  deriving Repr, DecidableEq

namespace AgentManager

/-- The configuration records returned by `getAgentConfigs()`
(lines 47-58); the inner `config: {}` object is carried opaquely by
`BaseAgent` and not read by any code modelled here, so it is elided. -/
structure AgentConfig where
  id : String
  type : String
  schedule : Option String
  deriving Repr, DecidableEq

/-- `createAgent(config)` (lines 41-45): `new BaseAgent(config)`. -/
def createAgent (c : AgentConfig) : AgentState :=
  BaseAgent.init c.id c.type c.schedule

/-- `getAgentConfigs()` (lines 47-58): the hard-coded configuration list. -/
def getAgentConfigs : List AgentConfig :=
  [{ id := "monitor-agent", type := "monitor",
     schedule := some "*/5 * * * *" }]

/-- The loop body of `loadAgents()` (lines 30-38) over an arbitrary
configuration list and creation step. `create` may fail (the `try` wraps
`createAgent` and the `Map.set`): a failing entry is logged and skipped,
the fold continues with the remaining entries. -/
def loadAgentsWith {ι : Type} (create : AgentConfig → Except String ι)
    (configs : List AgentConfig) (m : AgentManager ι) : AgentManager ι :=
  configs.foldl
    (fun acc c =>
      match create c with
      | Except.ok a => { acc with agents := AgentMap.set c.id a acc.agents }
      | Except.error _ => acc)
    m

/-- `loadAgents()` (lines 21-39): folds `getAgentConfigs()` through
`createAgent` (which, being `new BaseAgent(config)`, always succeeds),
storing each created instance keyed by `config.id`. Note: the loop never
calls `start()` on the created instance. -/
def loadAgents (m : AgentManager AgentState) : AgentManager AgentState :=
  loadAgentsWith (fun c => Except.ok (createAgent c)) getAgentConfigs m

/-- `startAgent(agentId)` (lines 60-66): delegate to the instance's
`start` when present; silently do nothing when absent. -/
def startAgent (beh : Nat → Except String Unit) (now : Nat)
    (m : AgentManager AgentState) (id : String) : AgentManager AgentState :=
  match AgentMap.find id m.agents with
  | some a =>
      { m with agents := AgentMap.set id (BaseAgent.start beh now a).1 m.agents }
  | none => m

/-- `stopAgent(agentId)` (lines 68-74): delegate to the instance's
`stop` when present; silently do nothing when absent. -/
def stopAgent (m : AgentManager AgentState) (id : String) :
    AgentManager AgentState :=
  match AgentMap.find id m.agents with
  | some a =>
      { m with agents := AgentMap.set id (BaseAgent.stop a).1 m.agents }
  | none => m

/-- `shutdown()` (lines 76-90): for every tracked entry, in map order,
`try { await agent.stop() } catch { log }` — recorded in the second
component as the list of attempted stops and their outcomes (`stopFn`
is the instance's possibly-overridden, possibly-throwing `stop`);
then `this.agents.clear()` and `this.isRunning = false`. Total: a stop
failure is caught per entry, so `shutdown` itself never throws. -/
def shutdown {ι : Type} (stopFn : ι → Except String ι) (m : AgentManager ι) :
    AgentManager ι × List (String × Except String ι) :=
  ({ agents := [], isRunning := false },
   m.agents.map (fun kv => (kv.1, stopFn kv.2)))

/-- `getAgentStatus(agentId)` (lines 92-95) generic in the instance's
`getStatus` projection: `agent ? agent.getStatus() : null`. -/
def getAgentStatusWith {ι σ : Type} (statusFn : ι → σ)
    (m : AgentManager ι) (id : String) : Option σ :=
  match AgentMap.find id m.agents with
  | some a => some (statusFn a)
  | none => none

/-- `getAllAgentStatuses()` (lines 97-103) generic in the instance's
`getStatus` projection: one entry per tracked instance, keyed by the map
key, valued by that instance's own status. -/
def getAllAgentStatusesWith {ι σ : Type} (statusFn : ι → σ)
    (m : AgentManager ι) : List (String × σ) :=
  m.agents.map (fun kv => (kv.1, statusFn kv.2))

/-- `getAgentStatus(agentId)` at the source's concrete instance type. -/
def getAgentStatus (m : AgentManager AgentState) (id : String) :
    Option BaseAgent.Status :=
  getAgentStatusWith BaseAgent.getStatus m id

/-- `getAllAgentStatuses()` at the source's concrete instance type. -/
def getAllAgentStatuses (m : AgentManager AgentState) :
    List (String × BaseAgent.Status) :=
  getAllAgentStatusesWith BaseAgent.getStatus m

/-- Failures `runAgentNow` surfaces to its caller: the id was unknown,
or the agent body threw and the error propagated. -/
inductive RunFailure where
  | notFound : RunFailure
  | execError (msg : String) : RunFailure
  deriving Repr, DecidableEq

/-- Modelled from the spec: the manually-triggered execution path of
`execute()` is described in spec section 4.3 but the implementation it
belongs to (`Manager.runAgentNow` and its manual branch of `execute`) is
absent from `src/` — only the Dashboard caller
(`src/dashboard/Dashboard.js` line 101) is present. Per the spec:
records `lastRunAt`, increments `runCount`, invokes the body; on failure
increments `errorCount`, invokes the error hook (second component, as in
`BaseAgent.execute`) and the error **is** propagated to the caller
(third component). -/
def manualExecute (beh : Nat → Except String Unit) (now : Nat)
    (s : AgentState) : AgentState × Option String × Except String Unit :=
  let s1 := { s with lastRun := some now, runCount := s.runCount + 1 }
  match beh s.runCount with
  | Except.ok _ => (s1, none, Except.ok ())
  | Except.error e =>
      ({ s1 with errorCount := s1.errorCount + 1 }, some e, Except.error e)

/-- Modelled from the spec: `Manager.runAgentNow(id)` is absent from
`src/` (only its Dashboard caller is). Spec section 4.2: "triggers an
out-of-band execution regardless of schedule; fails with NotFound if the
id is unknown; propagates execution errors to the caller (unlike
scheduled runs, which are swallowed)". -/
def runAgentNow (beh : Nat → Except String Unit) (now : Nat)
    (m : AgentManager AgentState) (id : String) :
    AgentManager AgentState × Except RunFailure Unit :=
  match AgentMap.find id m.agents with
  | none => (m, Except.error RunFailure.notFound)
  | some a =>
      let r := manualExecute beh now a
      ({ m with agents := AgentMap.set id r.1 m.agents },
       match r.2.2 with
       | Except.ok _ => Except.ok ()
       | Except.error e => Except.error (RunFailure.execError e))

end AgentManager

/-- Configuration field values (the persisted store holds JSON scalars;
strings and numbers suffice for everything the claims touch). -/
inductive CVal where
  | str (v : String) : CVal
  | num (v : Nat) : CVal
  deriving Repr, DecidableEq

/-- A configuration object: an ordered list of named fields. -/
abbrev ConfigObj := List (String × CVal)

namespace AgentRegistry

/-- Modelled from the spec: the Agent Registry component is absent from
`src/` (the Dashboard references `agentManager.agentRegistry` but no
registry source file is present). A catalog entry, reduced to the fields
the merge behaviour needs: the unique catalog `name` and the persisted
configuration. -/
structure AgentTypeDescriptor where
  name : String
  persistedConfig : ConfigObj
  deriving Repr, DecidableEq

/-- Failure surfaced by `createInstance`: the name is not in the catalog. -/
inductive RegistryFailure where
  | notFound : RegistryFailure
  deriving Repr, DecidableEq

/-- Modelled from the spec: "constructs merged configuration as
`persistedConfig` overridden field-by-field by `overrideConfig`" (spec
section 4.1) — JavaScript-spread semantics: fields of the override
replace same-named persisted fields, all other persisted fields are
kept, and override-only fields are added. -/
def mergeConfig (persisted override : ConfigObj) : ConfigObj :=
  persisted.filter (fun kv => (AgentMap.find kv.1 override).isNone) ++ override

/-- Modelled from the spec: `createInstance(name, overrideConfig)` of
the absent Agent Registry, reduced to the configuration it hands to the
descriptor's factory: "Fails with NotFound if `name` is absent from the
catalog", otherwise produces the merged configuration (the synthesized
fresh `id` and the factory invocation are not observable by any claim
and are elided). -/
def createInstance (catalog : List AgentTypeDescriptor) (name : String)
    (override : ConfigObj) : Except RegistryFailure ConfigObj :=
  match catalog.find? (fun d => d.name == name) with
  | none => Except.error RegistryFailure.notFound
  | some d => Except.ok (mergeConfig d.persistedConfig override)

end AgentRegistry

/-! Helper lemmas. -/

theorem AgentMap.find_set_self {ι : Type} (k : String) (v : ι) :
    ∀ l : List (String × ι), AgentMap.find k (AgentMap.set k v l) = some v
  | [] => by simp [AgentMap.set, AgentMap.find]
  | kv :: rest => by
      by_cases h : kv.1 = k
      · simp [AgentMap.set, AgentMap.find, h]
      · simp [AgentMap.set, AgentMap.find, h, AgentMap.find_set_self k v rest]

theorem AgentMap.set_preserves {ι : Type} (P : String × ι → Prop)
    (k : String) (v : ι) (hv : P (k, v)) :
    ∀ l : List (String × ι), (∀ kv ∈ l, P kv) →
      ∀ kv ∈ AgentMap.set k v l, P kv
  | [], _ => by simpa [AgentMap.set] using hv
  | kv0 :: rest, hl => by
      by_cases h : kv0.1 = k
      · simp only [AgentMap.set, h, if_pos]
        intro kv hkv
        rcases List.mem_cons.1 hkv with rfl | hkv
        · exact hv
        · exact hl kv (List.mem_cons_of_mem _ hkv)
      · simp only [AgentMap.set, h, if_neg, not_false_iff]
        intro kv hkv
        rcases List.mem_cons.1 hkv with rfl | hkv
        · exact hl kv (List.mem_cons_self _ _)
        · exact AgentMap.set_preserves P k v hv rest
            (fun kv' h' => hl kv' (List.mem_cons_of_mem _ h')) kv hkv

theorem AgentMap.find_append {ι : Type} (k : String)
    (l1 l2 : List (String × ι)) :
    AgentMap.find k (l1 ++ l2) =
      match AgentMap.find k l1 with
      | some v => some v
      | none => AgentMap.find k l2 := by
  induction l1 with
  | nil => simp [AgentMap.find]
  | cons kv rest ih =>
      by_cases h : kv.1 = k <;> simp [AgentMap.find, h, ih]

theorem AgentMap.find_filter_keys {ι : Type} (k : String)
    (o : List (String × ι)) :
    ∀ p : List (String × ι),
      AgentMap.find k (p.filter (fun kv => (AgentMap.find kv.1 o).isNone)) =
        if (AgentMap.find k o).isNone then AgentMap.find k p else none
  | [] => by simp [AgentMap.find]
  | kv :: rest => by
      by_cases hk : kv.1 = k
      · subst hk
        by_cases ho : (AgentMap.find kv.1 o).isNone
        · simp [List.filter_cons, ho, AgentMap.find]
        · simp [List.filter_cons, ho, AgentMap.find,
            AgentMap.find_filter_keys kv.1 o rest]
      · by_cases ho : (AgentMap.find kv.1 o).isNone
        · simp [List.filter_cons, ho, AgentMap.find, hk,
            AgentMap.find_filter_keys k o rest]
        · simp [List.filter_cons, ho, AgentMap.find, hk,
            AgentMap.find_filter_keys k o rest]

theorem AgentRegistry.find_mergeConfig (k : String) (p o : ConfigObj) :
    AgentMap.find k (AgentRegistry.mergeConfig p o) =
      match AgentMap.find k o with
      | some v => some v
      | none => AgentMap.find k p := by
  unfold AgentRegistry.mergeConfig
  rw [AgentMap.find_append, AgentMap.find_filter_keys k o p]
  cases h : AgentMap.find k o <;>
    cases hp : AgentMap.find k p <;> simp [h, hp]

theorem BaseAgent.fireAll_error (beh : Nat → Except String Unit)
    (hall : ∀ n, ∃ msg, beh n = Except.error msg) :
    ∀ (times : List Nat) (s : AgentState),
      (BaseAgent.fireAll beh times s).runCount = s.runCount + times.length ∧
      (BaseAgent.fireAll beh times s).errorCount = s.errorCount + times.length ∧
      (BaseAgent.fireAll beh times s).isRunning = s.isRunning
  | [], s => by simp [BaseAgent.fireAll]
  | t :: ts, s => by
      obtain ⟨msg, hm⟩ := hall s.runCount
      have hx : (BaseAgent.execute beh t s).1 =
          { s with lastRun := some t, runCount := s.runCount + 1,
                   errorCount := s.errorCount + 1 } := by
        simp [BaseAgent.execute, hm]
      have hstep : BaseAgent.fireAll beh (t :: ts) s =
          BaseAgent.fireAll beh ts (BaseAgent.execute beh t s).1 := rfl
      obtain ⟨h1, h2, h3⟩ :=
        BaseAgent.fireAll_error beh hall ts (BaseAgent.execute beh t s).1
      rw [hx] at h1 h2 h3
      rw [hstep, hx]
      refine ⟨?_, ?_, ?_⟩
      · rw [h1, List.length_cons]
        show s.runCount + 1 + ts.length = s.runCount + (ts.length + 1)
        omega
      · rw [h2, List.length_cons]
        show s.errorCount + 1 + ts.length = s.errorCount + (ts.length + 1)
        omega
      · rw [h3]

theorem BaseAgent.backoffFrom_eq_map (d : Nat) :
    ∀ (n i : Nat),
      BaseAgent.backoffFrom d i n =
        (List.range n).map (fun j => d * 2 ^ (i + j))
  | 0, i => by simp [BaseAgent.backoffFrom]
  | n + 1, i => by
      have hfg : (fun j => d * 2 ^ (i + 1 + j)) =
          ((fun j => d * 2 ^ (i + j)) ∘ Nat.succ) :=
        funext fun j => congrArg (fun e => d * 2 ^ e) (by omega)
      calc BaseAgent.backoffFrom d i (n + 1)
          = d * 2 ^ i :: BaseAgent.backoffFrom d (i + 1) n := rfl
        _ = d * 2 ^ i ::
              (List.range n).map (fun j => d * 2 ^ (i + 1 + j)) := by
            rw [BaseAgent.backoffFrom_eq_map d n (i + 1)]
        _ = d * 2 ^ (i + 0) ::
              (List.range n).map ((fun j => d * 2 ^ (i + j)) ∘ Nat.succ) := by
            rw [hfg, Nat.add_zero]
        _ = (List.range (n + 1)).map (fun j => d * 2 ^ (i + j)) := by
            rw [List.range_succ_eq_map, List.map_cons, List.map_map]

theorem BaseAgent.retryGo_all_fail (op : Nat → Except String α) (d : Nat)
    (err : Nat → String) :
    ∀ (rem i : Nat),
      (∀ j, j < rem + 1 → op (i + j) = Except.error (err (i + j))) →
      BaseAgent.retryGo op d i (rem + 1) =
        ⟨Except.error (err (i + rem)), BaseAgent.backoffFrom d i rem, rem + 1⟩
  | 0, i, h => by
      have h0 := h 0 (by omega)
      rw [Nat.add_zero] at h0
      rw [BaseAgent.retryGo.eq_def]
      simp [h0, BaseAgent.backoffFrom]
  | rem + 1, i, h => by
      have h0 := h 0 (by omega)
      rw [Nat.add_zero] at h0
      have hrec := BaseAgent.retryGo_all_fail op d err rem (i + 1)
        (fun j hj => by
          have hx := h (j + 1) (by omega)
          have heq : i + (j + 1) = i + 1 + j := by omega
          rw [heq] at hx
          exact hx)
      rw [BaseAgent.retryGo.eq_def]
      simp only [h0, hrec]
      have heq : i + 1 + rem = i + (rem + 1) := by omega
      rw [heq]
      rfl

theorem BaseAgent.retryGo_success (op : Nat → Except String α) (d : Nat)
    (err : Nat → String) :
    ∀ (k i : Nat) (a : α), op (i + k) = Except.ok a →
      (∀ j, j < k → op (i + j) = Except.error (err (i + j))) →
      ∀ rem, k < rem →
        BaseAgent.retryGo op d i rem =
          ⟨Except.ok (some a), BaseAgent.backoffFrom d i k, k + 1⟩
  | 0, i, a, hok, _, rem, hlt => by
      obtain ⟨r, rfl⟩ : ∃ r, rem = r + 1 := ⟨rem - 1, by omega⟩
      rw [Nat.add_zero] at hok
      rw [BaseAgent.retryGo.eq_def]
      simp [hok, BaseAgent.backoffFrom]
  | k + 1, i, a, hok, hfail, rem, hlt => by
      obtain ⟨r, rfl⟩ : ∃ r, rem = r + 1 := ⟨rem - 1, by omega⟩
      have h0 := hfail 0 (by omega)
      rw [Nat.add_zero] at h0
      obtain ⟨r', rfl⟩ : ∃ r', r = r' + 1 := ⟨r - 1, by omega⟩
      have hok' : op (i + 1 + k) = Except.ok a := by
        have heq : i + (k + 1) = i + 1 + k := by omega
        rw [heq] at hok; exact hok
      have hrec := BaseAgent.retryGo_success op d err k (i + 1) a hok'
        (fun j hj => by
          have hx := hfail (j + 1) (by omega)
          have heq : i + (j + 1) = i + 1 + j := by omega
          rw [heq] at hx
          exact hx)
        (r' + 1) (by omega)
      rw [BaseAgent.retryGo.eq_def]
      simp only [h0, hrec]
      rfl

theorem BaseAgent.retryGo_calls_le (op : Nat → Except String α) (d : Nat) :
    ∀ (rem i : Nat), (BaseAgent.retryGo op d i rem).calls ≤ rem
  | 0, i => by rw [BaseAgent.retryGo.eq_def]
  | rem + 1, i => by
      cases hop : op i with
      | ok a =>
          rw [BaseAgent.retryGo.eq_def]
          simp [hop]
      | error e =>
          cases rem with
          | zero =>
              rw [BaseAgent.retryGo.eq_def]
              simp [hop]
          | succ r =>
              have hrec := BaseAgent.retryGo_calls_le op d (r + 1) (i + 1)
              rw [BaseAgent.retryGo.eq_def]
              simp only [hop]
              show (BaseAgent.retryGo op d (i + 1) (r + 1)).calls + 1 ≤ r + 1 + 1
              omega

theorem AgentManager.loadAgentsWith_keys
    (create : AgentManager.AgentConfig → Except String AgentState)
    (hcreate : ∀ c a, create c = Except.ok a → a.id = c.id) :
    ∀ (configs : List AgentManager.AgentConfig)
      (m : AgentManager AgentState),
      (∀ kv ∈ m.agents, kv.2.id = kv.1) →
      ∀ kv ∈ (AgentManager.loadAgentsWith create configs m).agents,
        kv.2.id = kv.1
  | [], m, hm => hm
  | c :: cs, m, hm => by
      cases hc : create c with
      | ok a =>
          have hstep : AgentManager.loadAgentsWith create (c :: cs) m =
              AgentManager.loadAgentsWith create cs
                { m with agents := AgentMap.set c.id a m.agents } := by
            unfold AgentManager.loadAgentsWith
            rw [List.foldl_cons, hc]
          rw [hstep]
          exact AgentManager.loadAgentsWith_keys create hcreate cs _
            (AgentMap.set_preserves (fun kv => kv.2.id = kv.1) c.id a
              (hcreate c a hc) m.agents hm)
      | error e =>
          have hstep : AgentManager.loadAgentsWith create (c :: cs) m =
              AgentManager.loadAgentsWith create cs m := by
            unfold AgentManager.loadAgentsWith
            rw [List.foldl_cons, hc]
          rw [hstep]
          exact AgentManager.loadAgentsWith_keys create hcreate cs m hm

theorem AgentManager.loadAgentsWith_skip {ι : Type}
    (create : AgentManager.AgentConfig → Except String ι)
    (cs1 cs2 : List AgentManager.AgentConfig)
    (cbad : AgentManager.AgentConfig) (e : String)
    (hbad : create cbad = Except.error e) (m : AgentManager ι) :
    AgentManager.loadAgentsWith create (cs1 ++ cbad :: cs2) m =
      AgentManager.loadAgentsWith create (cs1 ++ cs2) m := by
  unfold AgentManager.loadAgentsWith
  rw [List.foldl_append, List.foldl_append, List.foldl_cons, hbad]

/-! Claims. -/

/-- C1: each `execute()` whose `run()` body throws records `lastRun`,
increments `runCount`, increments `errorCount`, invokes the
error-handling hook with the thrown error, and leaves the running state
(and the trigger resource) unchanged; it propagates nothing —
`BaseAgent.execute` is a total function, the `catch` on lines 71-77
swallows the error. Hence an agent body that throws on every invocation
is still invoked on every subsequent scheduled firing: over any list of
firings, `runCount` and `errorCount` each grow by the number of firings
and the instance stays running. -/
theorem execute_error_isolation
    (beh : Nat → Except String Unit) (now : Nat) (s : AgentState)
    (e : String) (herr : beh s.runCount = Except.error e)
    (hall : ∀ n, ∃ msg, beh n = Except.error msg) (times : List Nat) :
    (BaseAgent.execute beh now s).1.lastRun = some now ∧
    (BaseAgent.execute beh now s).1.runCount = s.runCount + 1 ∧
    (BaseAgent.execute beh now s).1.errorCount = s.errorCount + 1 ∧
    (BaseAgent.execute beh now s).2 = some e ∧
    (BaseAgent.execute beh now s).1.isRunning = s.isRunning ∧
    (BaseAgent.execute beh now s).1.task = s.task ∧
    (BaseAgent.execute beh now s).1.activeTasks = s.activeTasks ∧
    (BaseAgent.fireAll beh times s).runCount = s.runCount + times.length ∧
    (BaseAgent.fireAll beh times s).errorCount =
      s.errorCount + times.length ∧
    (BaseAgent.fireAll beh times s).isRunning = s.isRunning := by
  obtain ⟨f1, f2, f3⟩ := BaseAgent.fireAll_error beh hall times s
  refine ⟨?_, ?_, ?_, ?_, ?_, ?_, ?_, f1, f2, f3⟩ <;>
    simp [BaseAgent.execute, herr]

/-- Witness for C1 at a concrete always-throwing agent. -/
theorem execute_error_isolation_witness :
    (BaseAgent.execute (fun _ => Except.error "boom") 7
        (BaseAgent.init "a" "m" none)).1.lastRun = some 7 ∧
    (BaseAgent.execute (fun _ => Except.error "boom") 7
        (BaseAgent.init "a" "m" none)).1.runCount = 1 ∧
    (BaseAgent.execute (fun _ => Except.error "boom") 7
        (BaseAgent.init "a" "m" none)).1.errorCount = 1 ∧
    (BaseAgent.execute (fun _ => Except.error "boom") 7
        (BaseAgent.init "a" "m" none)).2 = some "boom" ∧
    (BaseAgent.execute (fun _ => Except.error "boom") 7
        (BaseAgent.init "a" "m" none)).1.isRunning = false ∧
    (BaseAgent.execute (fun _ => Except.error "boom") 7
        (BaseAgent.init "a" "m" none)).1.task = false ∧
    (BaseAgent.execute (fun _ => Except.error "boom") 7
        (BaseAgent.init "a" "m" none)).1.activeTasks = 0 ∧
    (BaseAgent.fireAll (fun _ => Except.error "boom") [1, 2, 3]
        (BaseAgent.init "a" "m" none)).runCount = 3 ∧
    (BaseAgent.fireAll (fun _ => Except.error "boom") [1, 2, 3]
        (BaseAgent.init "a" "m" none)).errorCount = 3 ∧
    (BaseAgent.fireAll (fun _ => Except.error "boom") [1, 2, 3]
        (BaseAgent.init "a" "m" none)).isRunning = false :=
  execute_error_isolation (fun _ => Except.error "boom") 7
    (BaseAgent.init "a" "m" none) "boom" rfl
    (fun _ => ⟨"boom", rfl⟩) [1, 2, 3]

/-- C3: an instance constructed without a schedule gets exactly one
immediate `execute()` out of `start()` (so `runCount = 1` as soon as
`start` returns), ends up running, and holds no recurring trigger
resource; an instance constructed with a schedule gets a trigger
registered (exactly one resource) and `runCount` stays `0` until that
trigger first fires — the first firing takes it to `1`. -/
theorem start_immediate_vs_scheduled
    (beh : Nat → Except String Unit) (now t : Nat) (id ty c : String) :
    (BaseAgent.start beh now (BaseAgent.init id ty none)).1.runCount = 1 ∧
    (BaseAgent.start beh now (BaseAgent.init id ty none)).1.isRunning
      = true ∧
    (BaseAgent.start beh now (BaseAgent.init id ty none)).1.task = false ∧
    (BaseAgent.start beh now (BaseAgent.init id ty none)).1.activeTasks
      = 0 ∧
    (BaseAgent.start beh now (BaseAgent.init id ty (some c))).1.runCount
      = 0 ∧
    (BaseAgent.start beh now (BaseAgent.init id ty (some c))).1.isRunning
      = true ∧
    (BaseAgent.start beh now (BaseAgent.init id ty (some c))).1.task
      = true ∧
    (BaseAgent.start beh now (BaseAgent.init id ty (some c))).1.activeTasks
      = 1 ∧
    (BaseAgent.execute beh t
        (BaseAgent.start beh now
          (BaseAgent.init id ty (some c))).1).1.runCount = 1 := by
  cases h : beh 0 <;>
    simp [BaseAgent.start, BaseAgent.init, BaseAgent.execute, h]

/-- C4: `start()` on a running instance is a warned no-op (state
unchanged, so no second trigger is created), `stop()` on a non-running
instance is a warned no-op; and the invariant "`this.task` holds at most
one live trigger resource" holds initially and is preserved by `start`,
`stop` and `execute`, so at most one `activeTask` resource exists per
instance at any time. -/
theorem start_stop_idempotent_invariant
    (beh : Nat → Except String Unit) (now : Nat) (s t u : AgentState)
    (hs : s.isRunning = true) (ht : t.isRunning = false)
    (hu : BaseAgent.taskInv u) :
    BaseAgent.start beh now s = (s, true) ∧
    BaseAgent.stop t = (t, true) ∧
    BaseAgent.taskInv (BaseAgent.start beh now u).1 ∧
    BaseAgent.taskInv (BaseAgent.stop u).1 ∧
    BaseAgent.taskInv (BaseAgent.execute beh now u).1 ∧
    u.activeTasks ≤ 1 ∧
    (∀ i ty sch, BaseAgent.taskInv (BaseAgent.init i ty sch)) := by
  obtain ⟨hcnt, himp⟩ := hu
  refine ⟨by simp [BaseAgent.start, hs], by simp [BaseAgent.stop, ht],
    ?_, ?_, ?_, ?_, ?_⟩
  · by_cases hr : u.isRunning
    · simp [BaseAgent.start, hr]; exact ⟨hcnt, himp⟩
    · have htask : u.task = false := by
        cases h : u.task
        · rfl
        · exact absurd (himp h) (by simp [hr])
      rw [htask] at hcnt
      cases hsch : u.schedule with
      | some c =>
          simp [BaseAgent.start, hr, hsch, BaseAgent.taskInv, hcnt]
      | none =>
          cases hb : beh u.runCount <;>
            simp [BaseAgent.start, hr, hsch, BaseAgent.execute, hb,
              BaseAgent.taskInv, htask, hcnt]
  · by_cases hr : u.isRunning
    · cases h : u.task
      · rw [h] at hcnt
        simp [BaseAgent.stop, hr, h, BaseAgent.taskInv, hcnt]
      · rw [h] at hcnt
        simp [BaseAgent.stop, hr, h, BaseAgent.taskInv, hcnt]
    · simp [BaseAgent.stop, hr]; exact ⟨hcnt, himp⟩
  · cases hb : beh u.runCount <;>
      simp [BaseAgent.execute, hb, BaseAgent.taskInv] <;>
      exact ⟨hcnt, himp⟩
  · rw [hcnt]; cases u.task <;> simp
  · intro i ty sch; exact ⟨rfl, by simp [BaseAgent.init]⟩

/-- Witness for C4 at concrete running, stopped, and invariant-holding
instances. -/
theorem start_stop_idempotent_invariant_witness :
    BaseAgent.start (fun _ => Except.ok ()) 3
        { BaseAgent.init "a" "m" none with isRunning := true } =
      ({ BaseAgent.init "a" "m" none with isRunning := true }, true) ∧
    BaseAgent.stop (BaseAgent.init "b" "m" none) =
      (BaseAgent.init "b" "m" none, true) ∧
    BaseAgent.taskInv
      (BaseAgent.start (fun _ => Except.ok ()) 3
        (BaseAgent.init "c" "m" (some "*/5 * * * *"))).1 ∧
    BaseAgent.taskInv
      (BaseAgent.stop (BaseAgent.init "c" "m" (some "*/5 * * * *"))).1 ∧
    BaseAgent.taskInv
      (BaseAgent.execute (fun _ => Except.ok ()) 3
        (BaseAgent.init "c" "m" (some "*/5 * * * *"))).1 ∧
    (BaseAgent.init "c" "m" (some "*/5 * * * *")).activeTasks ≤ 1 ∧
    (∀ i ty sch, BaseAgent.taskInv (BaseAgent.init i ty sch)) :=
  start_stop_idempotent_invariant (fun _ => Except.ok ()) 3
    { BaseAgent.init "a" "m" none with isRunning := true }
    (BaseAgent.init "b" "m" none)
    (BaseAgent.init "c" "m" (some "*/5 * * * *"))
    rfl rfl (by constructor <;> simp [BaseAgent.init])

/-- C10: `retry` called with a maximum attempt count of `0` (the only
embedding of a non-positive count — the JavaScript loop guard `i <
maxRetries` fails immediately for every non-positive bound) returns with
no `return`/`throw` executed, i.e. the call evaluates to `undefined`
(`Except.ok none`), invokes the operation zero times, performs no
backoff wait, and raises nothing; the outcome is independent of the
operation and delay, hence indistinguishable from a successful operation
that returned `undefined`. -/
theorem retry_zero_attempts {α : Type} (op op2 : Nat → Except String α)
    (d d2 : Nat) :
    BaseAgent.retry op 0 d = ⟨Except.ok none, [], 0⟩ ∧
    BaseAgent.retry op 0 d = BaseAgent.retry op2 0 d2 :=
  ⟨rfl, rfl⟩

/-- C7: with `N ≥ 1` attempts allowed, `retry` invokes the operation up
to `N` times (the recorded call count never exceeds `N`) and returns
the first successful result, having waited `delay * 2^i` after each
failed non-final attempt `i`; when all `N` attempts fail it re-raises
the error of the last attempt, after the waits
`delay * 2^0, ..., delay * 2^(N-2)`. -/
theorem retry_backoff_spec {α : Type} (op : Nat → Except String α)
    (N d : Nat) (hN : 1 ≤ N) (err : Nat → String) (i : Nat) (a : α) :
    ((∀ j, j < N → op j = Except.error (err j)) →
      BaseAgent.retry op N d =
        ⟨Except.error (err (N - 1)),
         (List.range (N - 1)).map (fun j => d * 2 ^ j), N⟩) ∧
    (i < N → op i = Except.ok a →
      (∀ j, j < i → op j = Except.error (err j)) →
      BaseAgent.retry op N d =
        ⟨Except.ok (some a),
         (List.range i).map (fun j => d * 2 ^ j), i + 1⟩) ∧
    (BaseAgent.retry op N d).calls ≤ N := by
  obtain ⟨rem, rfl⟩ : ∃ rem, N = rem + 1 := ⟨N - 1, by omega⟩
  refine ⟨?_, ?_, BaseAgent.retryGo_calls_le op d (rem + 1) 0⟩
  · intro hfail
    have h := BaseAgent.retryGo_all_fail op d err rem 0
      (fun j hj => by simpa using hfail j (by omega))
    unfold BaseAgent.retry
    rw [h, BaseAgent.backoffFrom_eq_map]
    simp
  · intro hi hok hfail
    have h := BaseAgent.retryGo_success op d err i 0 a (by simpa using hok)
      (fun j hj => by simpa using hfail j hj) (rem + 1) hi
    unfold BaseAgent.retry
    rw [h, BaseAgent.backoffFrom_eq_map]
    simp

/-- Witness for C7: failure on attempt 0, success on attempt 1, with
`N = 3`, `delay = 5`: one wait of `5 * 2^0 = 5`, two invocations. -/
theorem retry_backoff_spec_witness :
    BaseAgent.retry
        (fun j => if j = 0 then Except.error "e0" else Except.ok 42)
        3 5 =
      ⟨Except.ok (some 42), [5], 2⟩ :=
  (retry_backoff_spec
      (fun j => if j = 0 then Except.error "e0" else Except.ok 42)
      3 5 (by omega) (fun _ => "e0") 1 42).2.1
    (by omega) rfl
    (fun j hj =>
      match j, hj with
      | 0, _ => rfl
      | k + 1, h => absurd h (by omega))

/-- C5: `shutdown()` attempts `stop()` on every tracked instance in map
order (a failure on one is caught and does not prevent the attempt on
any other — every entry, failing or not, appears in the attempt list),
clears the instance map (so `getAllAgentStatuses` on the result is
empty), marks the manager not-running, and a second `shutdown()` on the
result completes (it is a total function) with no instances to stop. -/
theorem shutdown_complete {ι σ : Type} (stopFn : ι → Except String ι)
    (statusFn : ι → σ) (m : AgentManager ι) (k : String) (a : ι)
    (hmem : (k, a) ∈ m.agents) :
    (AgentManager.shutdown stopFn m).2 =
      m.agents.map (fun kv => (kv.1, stopFn kv.2)) ∧
    (k, stopFn a) ∈ (AgentManager.shutdown stopFn m).2 ∧
    (AgentManager.shutdown stopFn m).1.agents = [] ∧
    AgentManager.getAllAgentStatusesWith statusFn
      (AgentManager.shutdown stopFn m).1 = [] ∧
    (AgentManager.shutdown stopFn m).1.isRunning = false ∧
    AgentManager.shutdown stopFn (AgentManager.shutdown stopFn m).1 =
      ((AgentManager.shutdown stopFn m).1, []) :=
  ⟨rfl, List.mem_map.2 ⟨(k, a), hmem, rfl⟩, rfl, rfl, rfl, rfl⟩

/-- Witness for C5: two tracked agents, `stop` fails on the first —
the second is still attempted (and the attempt list shows both). -/
theorem shutdown_complete_witness :
    (AgentManager.shutdown
        (fun n : Nat => if n = 0 then Except.error "bad" else Except.ok n)
        { agents := [("a", 0), ("b", 1)], isRunning := true }).2 =
      [("a", Except.error "bad"), ("b", Except.ok 1)] ∧
    ("b", Except.ok 1) ∈
      (AgentManager.shutdown
        (fun n : Nat => if n = 0 then Except.error "bad" else Except.ok n)
        { agents := [("a", 0), ("b", 1)], isRunning := true }).2 ∧
    (AgentManager.shutdown
        (fun n : Nat => if n = 0 then Except.error "bad" else Except.ok n)
        { agents := [("a", 0), ("b", 1)], isRunning := true }).1.agents =
      [] :=
  ⟨(shutdown_complete
      (fun n : Nat => if n = 0 then Except.error "bad" else Except.ok n)
      (fun n : Nat => n)
      { agents := [("a", 0), ("b", 1)], isRunning := true }
      "b" 1 (by simp)).1,
   (shutdown_complete
      (fun n : Nat => if n = 0 then Except.error "bad" else Except.ok n)
      (fun n : Nat => n)
      { agents := [("a", 0), ("b", 1)], isRunning := true }
      "b" 1 (by simp)).2.1,
   (shutdown_complete
      (fun n : Nat => if n = 0 then Except.error "bad" else Except.ok n)
      (fun n : Nat => n)
      { agents := [("a", 0), ("b", 1)], isRunning := true }
      "b" 1 (by simp)).2.2.1⟩

/-- C6 counterexample: `loadAgents()` (AgentManager.js lines 21-39)
stores the single configured agent — whose config carries schedule
`*/5 * * * *` — but never calls `start()` on it: the stored instance is
the freshly constructed `BaseAgent` with `isRunning = false` and
`runCount = 0`. The claim as stated requires `start()` to have been
invoked on the stored instance, and `start()` on a schedule-bearing
instance sets `isRunning = true` (last conjunct), so the claim is false
on this input. (The code also has no `getEnabledAgents` or Registry:
creation goes through the local `createAgent` factory over
`getAgentConfigs()`.) -/
theorem loadAgents_no_start_counterexample :
    (AgentManager.loadAgents { agents := [], isRunning := true }).agents =
      [("monitor-agent",
        BaseAgent.init "monitor-agent" "monitor" (some "*/5 * * * *"))] ∧
    (BaseAgent.init "monitor-agent" "monitor"
        (some "*/5 * * * *")).isRunning = false ∧
    (BaseAgent.init "monitor-agent" "monitor"
        (some "*/5 * * * *")).runCount = 0 ∧
    (BaseAgent.start (fun _ => Except.ok ()) 0
        (BaseAgent.init "monitor-agent" "monitor"
          (some "*/5 * * * *"))).1.isRunning = true :=
  ⟨rfl, rfl, rfl, rfl⟩

/-- C6 amended: `loadAgents()` iterates over every configuration
returned by `getAgentConfigs()`, creates an instance via the local
`createAgent` factory (`new BaseAgent(config)`), stores it in the
instance map keyed by the config's `id`, and does **not** call
`start()` on it (the stored instance is the freshly constructed, not
running one); a failure to create any one agent is logged and skipped
and does not prevent the remaining agents from being loaded. -/
theorem loadAgents_amended {ι : Type}
    (create : AgentManager.AgentConfig → Except String ι)
    (cs1 cs2 : List AgentManager.AgentConfig)
    (cbad : AgentManager.AgentConfig) (e : String)
    (hbad : create cbad = Except.error e) (m : AgentManager ι)
    (m0 : AgentManager AgentState) :
    AgentManager.loadAgentsWith create (cs1 ++ cbad :: cs2) m =
      AgentManager.loadAgentsWith create (cs1 ++ cs2) m ∧
    AgentMap.find "monitor-agent"
        (AgentManager.loadAgents m0).agents =
      some (BaseAgent.init "monitor-agent" "monitor"
        (some "*/5 * * * *")) ∧
    (BaseAgent.init "monitor-agent" "monitor"
        (some "*/5 * * * *")).isRunning = false ∧
    (AgentManager.loadAgents m0).isRunning = m0.isRunning := by
  refine ⟨AgentManager.loadAgentsWith_skip create cs1 cs2 cbad e hbad m,
    ?_, rfl, rfl⟩
  show AgentMap.find "monitor-agent"
      (AgentMap.set "monitor-agent"
        (BaseAgent.init "monitor-agent" "monitor" (some "*/5 * * * *"))
        m0.agents) = _
  exact AgentMap.find_set_self _ _ m0.agents

/-- Witness for C6 amended: a failing middle config is skipped and the
flanking configs still load; `loadAgents` stores the (unstarted)
monitor agent under its config id. -/
theorem loadAgents_amended_witness :
    AgentManager.loadAgentsWith
        (fun c => if c.id = "bad" then Except.error "nope"
                  else Except.ok c.id)
        [⟨"g1", "t1", none⟩, ⟨"bad", "t", none⟩, ⟨"g2", "t2", none⟩]
        { agents := [], isRunning := false } =
      AgentManager.loadAgentsWith
        (fun c => if c.id = "bad" then Except.error "nope"
                  else Except.ok c.id)
        [⟨"g1", "t1", none⟩, ⟨"g2", "t2", none⟩]
        { agents := [], isRunning := false } ∧
    AgentMap.find "monitor-agent"
        (AgentManager.loadAgents
          { agents := [], isRunning := true }).agents =
      some (BaseAgent.init "monitor-agent" "monitor"
        (some "*/5 * * * *")) :=
  ⟨(loadAgents_amended
      (fun c => if c.id = "bad" then Except.error "nope"
                else Except.ok c.id)
      [⟨"g1", "t1", none⟩] [⟨"g2", "t2", none⟩] ⟨"bad", "t", none⟩
      "nope" rfl { agents := [], isRunning := false }
      { agents := [], isRunning := true }).1,
   (loadAgents_amended
      (fun c => if c.id = "bad" then Except.error "nope"
                else Except.ok c.id)
      [⟨"g1", "t1", none⟩] [⟨"g2", "t2", none⟩] ⟨"bad", "t", none⟩
      "nope" rfl { agents := [], isRunning := false }
      { agents := [], isRunning := true }).2.1⟩

/-- C9: `getAgentStatus` returns `none` — it is a total function, no
raising — for an id not in the map; `getAllAgentStatuses` returns
exactly one entry per tracked instance (same length, one image entry
per map entry), keyed by the map key, each value the instance's own
status projection. Both are pure read-only projections: they return
only views, never a modified manager or instance. After `loadAgents`
populates the map, every entry's key equals the stored instance's own
`id`, so the statuses are keyed by instance id. -/
theorem status_readonly_spec {ι σ : Type} (statusFn : ι → σ)
    (m : AgentManager ι) (idU : String)
    (habsent : AgentMap.find idU m.agents = none)
    (m0 : AgentManager AgentState)
    (h0 : ∀ kv ∈ m0.agents, kv.2.id = kv.1) :
    AgentManager.getAgentStatusWith statusFn m idU = none ∧
    AgentManager.getAllAgentStatusesWith statusFn m =
      m.agents.map (fun kv => (kv.1, statusFn kv.2)) ∧
    (AgentManager.getAllAgentStatusesWith statusFn m).length =
      m.agents.length ∧
    (∀ kv ∈ (AgentManager.loadAgents m0).agents, kv.2.id = kv.1) ∧
    (∀ kv ∈ (AgentManager.loadAgents m0).agents,
      (kv.1, BaseAgent.getStatus kv.2) ∈
        AgentManager.getAllAgentStatuses (AgentManager.loadAgents m0)) := by
  refine ⟨?_, rfl, List.length_map _ _, ?_, ?_⟩
  · simp [AgentManager.getAgentStatusWith, habsent]
  · exact AgentManager.loadAgentsWith_keys
      (fun c => Except.ok (AgentManager.createAgent c))
      (fun c a h => by cases h; rfl)
      AgentManager.getAgentConfigs m0 h0
  · intro kv hkv
    exact List.mem_map.2 ⟨kv, hkv, rfl⟩

/-- Witness for C9 on a one-agent manager and an unknown id. -/
theorem status_readonly_spec_witness :
    AgentManager.getAgentStatusWith (fun n : Nat => n)
        { agents := [("a", 5)], isRunning := true } "z" = none ∧
    (AgentManager.getAllAgentStatusesWith (fun n : Nat => n)
        { agents := [("a", 5)], isRunning := true }).length =
      (({ agents := [("a", 5)], isRunning := true } :
          AgentManager Nat)).agents.length :=
  ⟨(status_readonly_spec (fun n : Nat => n)
      { agents := [("a", 5)], isRunning := true } "z"
      (by simp [AgentMap.find])
      { agents := [], isRunning := true } (by simp)).1,
   (status_readonly_spec (fun n : Nat => n)
      { agents := [("a", 5)], isRunning := true } "z"
      (by simp [AgentMap.find])
      { agents := [], isRunning := true } (by simp)).2.2.1⟩

/-- C2 (spec-modelled: `runAgentNow` is absent from `src/`; only its
Dashboard caller is present, so the operation is modelled from spec
sections 4.2 and 4.3): `runAgentNow(id)` triggers one out-of-band
execution regardless of schedule or running state — the addressed
instance's `runCount` increments and `lastRun` is stamped, with no
condition on its `schedule` or `isRunning` — fails with NotFound when
the id is unknown to the Manager (state unchanged), and propagates an
error raised by the body's `run()` to the caller, unlike scheduled runs
(compare C1, where `execute` swallows it). -/
theorem runAgentNow_propagation
    (beh : Nat → Except String Unit) (now : Nat)
    (m : AgentManager AgentState) (idK idU : String) (a : AgentState)
    (hfound : AgentMap.find idK m.agents = some a)
    (habsent : AgentMap.find idU m.agents = none) (e : String) :
    AgentManager.runAgentNow beh now m idU =
      (m, Except.error AgentManager.RunFailure.notFound) ∧
    AgentMap.find idK
        (AgentManager.runAgentNow beh now m idK).1.agents =
      some (AgentManager.manualExecute beh now a).1 ∧
    (AgentManager.manualExecute beh now a).1.runCount = a.runCount + 1 ∧
    (AgentManager.manualExecute beh now a).1.lastRun = some now ∧
    (beh a.runCount = Except.error e →
      (AgentManager.runAgentNow beh now m idK).2 =
        Except.error (AgentManager.RunFailure.execError e)) ∧
    (beh a.runCount = Except.ok () →
      (AgentManager.runAgentNow beh now m idK).2 = Except.ok ()) := by
  refine ⟨?_, ?_, ?_, ?_, ?_, ?_⟩
  · simp [AgentManager.runAgentNow, habsent]
  · simp [AgentManager.runAgentNow, hfound, AgentMap.find_set_self]
  · cases hb : beh a.runCount <;>
      simp [AgentManager.manualExecute, hb]
  · cases hb : beh a.runCount <;>
      simp [AgentManager.manualExecute, hb]
  · intro hb
    simp [AgentManager.runAgentNow, hfound,
      AgentManager.manualExecute, hb]
  · intro hb
    simp [AgentManager.runAgentNow, hfound,
      AgentManager.manualExecute, hb]

/-- Witness for C2: unknown id rejected with NotFound; a throwing body
propagates its error through `runAgentNow`. -/
theorem runAgentNow_propagation_witness :
    AgentManager.runAgentNow (fun _ => Except.error "kaboom") 4
        { agents := [("x", BaseAgent.init "x" "m" none)],
          isRunning := true } "y" =
      ({ agents := [("x", BaseAgent.init "x" "m" none)],
         isRunning := true },
       Except.error AgentManager.RunFailure.notFound) ∧
    (AgentManager.runAgentNow (fun _ => Except.error "kaboom") 4
        { agents := [("x", BaseAgent.init "x" "m" none)],
          isRunning := true } "x").2 =
      Except.error (AgentManager.RunFailure.execError "kaboom") :=
  ⟨(runAgentNow_propagation (fun _ => Except.error "kaboom") 4
      { agents := [("x", BaseAgent.init "x" "m" none)],
        isRunning := true } "x" "y" (BaseAgent.init "x" "m" none)
      (by simp [AgentMap.find]) (by simp [AgentMap.find]) "kaboom").1,
   (runAgentNow_propagation (fun _ => Except.error "kaboom") 4
      { agents := [("x", BaseAgent.init "x" "m" none)],
        isRunning := true } "x" "y" (BaseAgent.init "x" "m" none)
      (by simp [AgentMap.find]) (by simp [AgentMap.find])
      "kaboom").2.2.2.2.1 rfl⟩

/-- C8 (spec-modelled: the Agent Registry is absent from `src/`):
`createInstance(name, override)` on a catalog name yields the persisted
configuration overridden field-by-field by the override — an override
field wins on lookup, any other persisted field is kept — and fails
with NotFound for every name absent from the catalog; includes the
spec's own merge example
`{schedule: "A", x: 1}` overridden by `{x: 2}` gives
`{schedule: "A", x: 2}`. -/
theorem createInstance_merge
    (catA catB : List AgentRegistry.AgentTypeDescriptor) (nm : String)
    (o p : ConfigObj) (d0 : AgentRegistry.AgentTypeDescriptor)
    (k : String)
    (habsent : ∀ dd ∈ catA, dd.name ≠ nm)
    (hfound : catB.find? (fun dd => dd.name == nm) = some d0) :
    AgentRegistry.createInstance catA nm o =
      Except.error AgentRegistry.RegistryFailure.notFound ∧
    AgentRegistry.createInstance catB nm o =
      Except.ok (AgentRegistry.mergeConfig d0.persistedConfig o) ∧
    AgentMap.find k (AgentRegistry.mergeConfig p o) =
      (match AgentMap.find k o with
       | some w => some w
       | none => AgentMap.find k p) ∧
    AgentRegistry.mergeConfig
        [("schedule", CVal.str "A"), ("x", CVal.num 1)]
        [("x", CVal.num 2)] =
      [("schedule", CVal.str "A"), ("x", CVal.num 2)] := by
  refine ⟨?_, ?_, AgentRegistry.find_mergeConfig k p o, rfl⟩
  · have hnone : catA.find? (fun dd => dd.name == nm) = none :=
      List.find?_eq_none.2 (fun dd hdd => by simp [habsent dd hdd])
    simp [AgentRegistry.createInstance, hnone]
  · simp [AgentRegistry.createInstance, hfound]

/-- Witness for C8: NotFound on a catalog without the name, and the
spec's merge example on a catalog with it. -/
theorem createInstance_merge_witness :
    AgentRegistry.createInstance [⟨"other", []⟩] "agent"
        [("x", CVal.num 2)] =
      Except.error AgentRegistry.RegistryFailure.notFound ∧
    AgentRegistry.createInstance
        [⟨"agent", [("schedule", CVal.str "A"), ("x", CVal.num 1)]⟩]
        "agent" [("x", CVal.num 2)] =
      Except.ok [("schedule", CVal.str "A"), ("x", CVal.num 2)] :=
  ⟨(createInstance_merge [⟨"other", []⟩]
      [⟨"agent", [("schedule", CVal.str "A"), ("x", CVal.num 1)]⟩]
      "agent" [("x", CVal.num 2)]
      [("schedule", CVal.str "A"), ("x", CVal.num 1)]
      ⟨"agent", [("schedule", CVal.str "A"), ("x", CVal.num 1)]⟩ "x"
      (by simp) rfl).1,
   (createInstance_merge [⟨"other", []⟩]
      [⟨"agent", [("schedule", CVal.str "A"), ("x", CVal.num 1)]⟩]
      "agent" [("x", CVal.num 2)]
      [("schedule", CVal.str "A"), ("x", CVal.num 1)]
      ⟨"agent", [("schedule", CVal.str "A"), ("x", CVal.num 1)]⟩ "x"
      (by simp) rfl).2.1⟩
